import Mathlib

/-!
Verification of the stylesheet-bundling subsystem of the Angular CLI build
tool (browser-esbuild stylesheets: `sass-language.ts`, `bundle-options.ts`)
and of the app-shell schematic's template lookup (`app-shell/index.ts`).

The TypeScript sources are shallowly embedded: pure computations become Lean
functions, the mutable module state (the Sass worker pool reference, the
component style counter) becomes explicit state passing, and fallible
operations return `Option` / `Except`.  External library helpers from
`node:path` / `node:url` (`join`, `dirname`, `relative`, `pathToFileURL`,
`fileURLToPath`) are modelled for POSIX-style paths without `.`/`..`
normalisation, which is the only way the sources use them.
-/

/-! ## String primitives

Executable, structurally recursive char-list implementations of the string
operations the sources use (`split`, `startsWith`, `endsWith`, `join`),
so that every definition in this file evaluates inside the kernel. -/

/-- Auxiliary splitter: cut a char list at every occurrence of `sep`
(JS `String.prototype.split` with a one-character separator: an empty
input yields one empty field, a trailing separator yields a trailing
empty field). -/
def splitCharsAux (sep : Char) : List Char → List Char → List (List Char)
  | [], acc => [acc.reverse]
  | c :: cs, acc =>
    if c = sep then acc.reverse :: splitCharsAux sep cs []
    else splitCharsAux sep cs (c :: acc)

/-- Split a string at every occurrence of the separator character. -/
def splitOnChar (sep : Char) (s : String) : List String :=
  (splitCharsAux sep s.toList []).map String.mk

/-- Does the first char list lead (start) the second? -/
def charsLead : List Char → List Char → Bool
  | [], _ => true
  | _ :: _, [] => false
  | p :: ps, c :: cs => p = c && charsLead ps cs

/-- Model of JS `String.prototype.startsWith`. -/
def strStartsWith (s pat : String) : Bool := charsLead pat.toList s.toList

/-- Model of JS `String.prototype.endsWith`. -/
def strEndsWith (s pat : String) : Bool :=
  charsLead pat.toList.reverse s.toList.reverse

/-- Join strings with a separator (JS `Array.prototype.join`). -/
def joinWith (sep : String) : List String → String
  | [] => ""
  | [s] => s
  | s :: rest => s ++ sep ++ joinWith sep rest

/-- Drop the first `n` characters of a string. -/
def strDrop (s : String) (n : Nat) : String := String.mk (s.toList.drop n)

/-! ## Path model (node:path posix behaviour, node:url file URLs) -/

/-- Model of node `path.join`: non-empty segments joined with a slash
(empty segments are ignored, as node does); an all-empty join yields ".". -/
def joinPath (parts : List String) : String :=
  let ps := parts.filter (fun s => s ≠ "")
  if ps.isEmpty then "." else joinWith "/" ps

/-- Model of node `path.dirname` for paths without a trailing slash:
everything before the last slash; "." when there is no slash, "/" for
top-level absolute paths. -/
def dirname (p : String) : String :=
  let parts := splitOnChar '/' p
  if parts.length ≤ 1 then "."
  else
    let init := parts.dropLast
    if init = [""] then "/" else joinWith "/" init

/-- Split an (absolute) path into its non-empty segments. -/
def pathSegments (p : String) : List String :=
  (splitOnChar '/' p).filter (fun s => s ≠ "")

/-- Drop the longest common prefix of two segment lists, returning the two
remainders. -/
def dropCommonSegs : List String → List String → List String × List String
  | a :: as, b :: bs => if a = b then dropCommonSegs as bs else (a :: as, b :: bs)
  | as, bs => (as, bs)

/-- Model of node `path.relative` on absolute POSIX paths: strip the common
segment prefix, ascend with ".." for each remaining segment of the base,
then descend into the target. -/
def relativePath (base target : String) : String :=
  let (br, tr) := dropCommonSegs (pathSegments base) (pathSegments target)
  joinWith "/" (List.replicate br.length ".." ++ tr)

/-- Model of node `url.pathToFileURL` (as a string): prefix the scheme. -/
def pathToFileURL (p : String) : String := "file://" ++ p

/-- Model of node `url.fileURLToPath` (as a string): strip the scheme. -/
def fileURLToPath (u : String) : String :=
  if strStartsWith u "file://" then strDrop u 7 else u

/-- Last slash-separated segment, as node `path.basename` on slash-free or
simple slash-separated paths. -/
def basename (p : String) : String :=
  (splitOnChar '/' p).getLastD ""

/-! ## Sass worker pool lifecycle (`sass-language.ts` lines 19, 25-28)

The module-level mutable `sassWorkerPool : SassWorkerImplementation |
undefined` becomes an explicit state record; a call of `close()` on a live
pool is recorded in an effect counter (the embedding's observable trace of
`sassWorkerPool?.close()`). -/

/-- State of the `sass-language.ts` module: the lazily created worker pool
reference plus a log of how many `close()` calls have been issued. -/
structure SassModuleState where
  sassWorkerPool : Option Unit
  closeCalls : Nat
  deriving Repr, DecidableEq

/-- Embedding of `shutdownSassWorkerPool`: `sassWorkerPool?.close()` (a
close effect only when the pool reference is set, thanks to optional
chaining) followed by `sassWorkerPool = undefined`.  The function is total:
it never throws. -/
def shutdownSassWorkerPool (s : SassModuleState) : SassModuleState :=
  { sassWorkerPool := none
    closeCalls := s.closeCalls + (if s.sassWorkerPool.isSome then 1 else 0) }

/-! ## App-shell schematic template lookup (`app-shell/index.ts` lines 58-88) -/

/-- A schematics `Tree` restricted to what `getComponentTemplate` uses:
`readText` yields the file contents, or fails (`none` models the thrown
read error). -/
def SchematicsTree : Type := String → Option String

/-- Embedding of the `TemplateInfo` interface: the optional `template`
property (its full text, as `getFullText()` returns it) and the optional
`templateUrl` property (the text of its string-literal initializer). -/
structure TemplateInfo where
  templateProp : Option String
  templateUrlProp : Option String

/-- Embedding of `getComponentTemplate`.  Returns the template string
together with the list of paths whose `readText` was attempted (the
embedding's observable trace of tree reads).  A failing read is swallowed
by the empty `catch` block, leaving the initial empty template. -/
def getComponentTemplate (host : SchematicsTree) (compPath : String)
    (tmplInfo : TemplateInfo) : String × List String :=
  match tmplInfo.templateProp with
  | some fullText => (fullText, [])
  | none =>
    match tmplInfo.templateUrlProp with
    | some templateUrl =>
      let dir := dirname compPath
      let templatePath := joinPath [dir, templateUrl]
      match host templatePath with
      | some contents => (contents, [templatePath])
      | none => ("", [templatePath])
    | none => ("", [])

/-! ## Component stylesheet bundling result extraction
(`bundle-options.ts` lines 145-189) -/

/-- An esbuild `PartialMessage` as used by the bundling pass results
(only the `text` payload matters to the claims about propagation). -/
structure BundleMessage where
  text : String
  deriving Repr, DecidableEq

/-- An esbuild `OutputFile` restricted to the fields the extraction loop
reads (`path` and the decoded `text`). -/
structure BundleOutputFile where
  path : String
  text : String
  deriving Repr, DecidableEq

/-- One entry of the metafile `outputs` record, restricted to the fields
the stripping loop touches: the `entryPoint` marker and the added
`ng-component` tag. -/
structure MetafileOutput where
  entryPoint : Option String
  ngComponent : Bool
  deriving Repr, DecidableEq

/-- The result of `BundlerContext.bundle()` as `bundleComponentStylesheet`
consumes it: `errors` is `undefined` (`none`) on success and an array on
failure, so the JS truthiness test `!result.errors` is `errors.isNone`. -/
structure BundlerContextResult where
  errors : Option (List BundleMessage)
  warnings : List BundleMessage
  outputFiles : List BundleOutputFile
  metafile : Option (List (String × MetafileOutput))

/-- The object literal returned by `bundleComponentStylesheet`
(`bundle-options.ts` lines 181-189). -/
structure ComponentStylesheetResult where
  errors : Option (List BundleMessage)
  warnings : List BundleMessage
  contents : String
  map : Option String
  path : Option String
  resourceFiles : List BundleOutputFile
  metafile : Option (List (String × MetafileOutput))
  deriving Repr

/-- One step of the output-file partitioning loop of
`bundleComponentStylesheet` (lines 155-166): a `.css` file sets the output
path and contents, a `.css.map` file sets the map text, anything else is a
referenced resource. -/
def partitionStep
    (acc : String × Option String × Option String × List BundleOutputFile)
    (outputFile : BundleOutputFile) :
    String × Option String × Option String × List BundleOutputFile :=
  let (contents, map, outputPath, resourceFiles) := acc
  let filename := basename outputFile.path
  if strEndsWith filename ".css" then
    (outputFile.text, map, some outputFile.path, resourceFiles)
  else if strEndsWith filename ".css.map" then
    (contents, some outputFile.text, outputPath, resourceFiles)
  else
    (contents, map, outputPath, resourceFiles ++ [outputFile])

/-- Embedding of the result-extraction tail of `bundleComponentStylesheet`
(lines 149-189): partitioning and metafile stripping run only under
`!result.errors`; the initial values (`contents = ''`, `map`, `outputPath`
and `metafile` undefined, `resourceFiles` empty) survive otherwise. -/
def extractBundleResult (result : BundlerContextResult) :
    ComponentStylesheetResult :=
  let (contents, map, outputPath, resourceFiles) :=
    if result.errors.isNone then
      result.outputFiles.foldl partitionStep ("", none, none, [])
    else
      ("", none, none, [])
  let metafile :=
    if result.errors.isNone then
      result.metafile.map (fun outputs =>
        outputs.map (fun kv =>
          (kv.1, { entryPoint := none, ngComponent := true })))
    else
      none
  { errors := result.errors
    warnings := result.warnings
    contents := contents
    map := map
    path := outputPath
    resourceFiles := resourceFiles
    metafile := metafile }

/-! ## Sass import resolution (`sass-language.ts` lines 36-58 and 88-141) -/

/-- The host bundler's `build.resolve(url, { resolveDir })` as the code
observes it: a resolved path, or `none` when `result.path` is empty. -/
def Resolver : Type := String → String → Option String

/-- Embedding of `resolveUrl` (lines 36-58): resolve against the primary
resolution directory (`build.initialOptions.absWorkingDir`); if that fails
and previously-successful resolution directories were accumulated, retry
against each of those, stopping at the first success. -/
def resolveUrl (resolve : Resolver) (primaryDir : String) (url : String)
    (previousResolvedModules : List String) : Option String :=
  match resolve url primaryDir with
  | some p => some p
  | none => previousResolvedModules.findSome? (fun dir => resolve url dir)

/-- The `parts`/`hasScope` split of `findFileUrl` (lines 99-102): split the
specifier on slashes; a scope is present when the first segment starts
with an at-sign and a second segment exists. -/
def sassSpecifierHasScope (url : String) : Bool :=
  let parts := splitOnChar '/' url
  decide (parts.length ≥ 2) && strStartsWith (parts.headD "") "@"

/-- The `packageName` computed by `findFileUrl` (line 102): the first two
segments joined when scoped, the first segment alone otherwise. -/
def sassPackageName (url : String) : String :=
  let parts := splitOnChar '/' url
  let nameOrScope := parts.headD ""
  if sassSpecifierHasScope url then
    nameOrScope ++ "/" ++ (parts[1]?).getD ""
  else
    nameOrScope

/-- The deep-import target path built by `findFileUrl` (lines 107-113 and
130-136) once `<packageName>/package.json` resolved to `packageJsonPath`:
`join(dirname(packageJsonPath), !hasScope && nameOrFirstPath ?
nameOrFirstPath : '', ...pathPart)`. -/
def sassDeepImportPath (url packageJsonPath : String) : String :=
  let parts := splitOnChar '/' url
  let nameOrFirstPath := (parts[1]?).getD ""
  let pathPart := parts.drop 2
  let middle :=
    if !sassSpecifierHasScope url && nameOrFirstPath ≠ "" then nameOrFirstPath
    else ""
  joinPath (dirname packageJsonPath :: middle :: pathPart)

/-- Embedding of the `findFileUrl` importer callback (lines 88-141).  The
four resolution attempts happen in source order: the specifier as-is
against the primary directory; the package deep-import
(`<packageName>/package.json`) against the primary directory; the
specifier as-is with the previously-resolved-modules workaround; the
package deep-import with that workaround; otherwise the not-found
sentinel `none` (the function is total, so ordinary unresolved imports
never throw). -/
def findFileUrl (resolve : Resolver) (primaryDir : String) (url : String)
    (previousResolvedModules : List String) : Option String :=
  match resolveUrl resolve primaryDir url [] with
  | some p => some (pathToFileURL p)
  | none =>
    let packageName := sassPackageName url
    match resolveUrl resolve primaryDir (packageName ++ "/package.json") [] with
    | some packageJsonPath =>
      some (pathToFileURL (sassDeepImportPath url packageJsonPath))
    | none =>
      match resolveUrl resolve primaryDir url previousResolvedModules with
      | some p => some (pathToFileURL p)
      | none =>
        match
          resolveUrl resolve primaryDir (packageName ++ "/package.json")
            previousResolvedModules
        with
        | some packageJsonPath =>
          some (pathToFileURL (sassDeepImportPath url packageJsonPath))
        | none => none

/-- The resolution order as the specification's claim words it: the
specifier as-is against the primary directory, then against each
previously-successful directory stopping at the first success, and only
if still unresolved the package deep-import fallback (itself using steps
one and two again); `none` when everything fails.  Stated from the spec's
words for comparison with `findFileUrl`, which embeds the source. -/
def findFileUrlClaimOrder (resolve : Resolver) (primaryDir : String)
    (url : String) (previousResolvedModules : List String) : Option String :=
  match resolveUrl resolve primaryDir url previousResolvedModules with
  | some p => some (pathToFileURL p)
  | none =>
    let packageName := sassPackageName url
    match
      resolveUrl resolve primaryDir (packageName ++ "/package.json")
        previousResolvedModules
    with
    | some packageJsonPath =>
      some (pathToFileURL (sassDeepImportPath url packageJsonPath))
    | none => none

/-- The deep-import reconstruction as the claim words it: the directory
containing the resolved `package.json`, joined with the non-package path
segments of the specifier (all segments after the first for a plain
package, after the first two for a scoped one). -/
def claimDeepImportPath (url packageJsonPath : String) : String :=
  let parts := splitOnChar '/' url
  let nonPackageSegs :=
    if sassSpecifierHasScope url then parts.drop 2 else parts.drop 1
  joinPath (dirname packageJsonPath :: nonPackageSegs)

/-- A concrete resolver separating the source's resolution order from the
claim's: the specifier resolves only through a previously-successful
directory, while the package's `package.json` resolves in the primary
directory. -/
def cexResolver : Resolver := fun url dir =>
  if url = "pkg/style" && dir = "/prev" then
    some "/prev/node_modules/pkg/style.scss"
  else if url = "pkg/package.json" && dir = "/root" then
    some "/root/node_modules/pkg/package.json"
  else
    none

/-! ## Base64 (the encoding `Buffer.toString('base64')` produces) -/

/-- The 64 characters of the standard base64 alphabet. -/
def base64Alphabet : List Char :=
  "ABCDEFGHIJKLMNOPQRSTUVWXYZabcdefghijklmnopqrstuvwxyz0123456789+/".toList

/-- The base64 character for a sextet value. -/
def base64Char (n : Nat) : Char := base64Alphabet.getD n 'A'

/-- Index of a character in the base64 alphabet, `none` for padding or
foreign characters. -/
def base64CharIndex (c : Char) : Option Nat :=
  base64Alphabet.findIdx? (fun x => x = c)

/-- Standard base64 encoding of a byte list, three bytes to four
characters, with `=` padding. -/
def base64EncodeChars : List Nat → List Char
  | [] => []
  | [b0] => [base64Char (b0 / 4), base64Char (b0 % 4 * 16), '=', '=']
  | [b0, b1] =>
    [base64Char (b0 / 4), base64Char (b0 % 4 * 16 + b1 / 16),
     base64Char (b1 % 16 * 4), '=']
  | b0 :: b1 :: b2 :: rest =>
    base64Char (b0 / 4) :: base64Char (b0 % 4 * 16 + b1 / 16) ::
      base64Char (b1 % 16 * 4 + b2 / 64) :: base64Char (b2 % 64) ::
      base64EncodeChars rest

/-- Base64 encoding of a byte list as a string. -/
def base64Encode (bytes : List Nat) : String :=
  String.mk (base64EncodeChars bytes)

/-- Standard base64 decoding, the partial inverse of `base64EncodeChars`:
four characters to three bytes, a final `=`-padded quartet to one or two
bytes; `none` on malformed input. -/
def base64DecodeChars : List Char → Option (List Nat)
  | [] => some []
  | c0 :: c1 :: c2 :: c3 :: rest =>
    if c3 = '=' then
      if rest ≠ [] then none
      else if c2 = '=' then
        match base64CharIndex c0, base64CharIndex c1 with
        | some n0, some n1 => some [n0 * 4 + n1 / 16]
        | _, _ => none
      else
        match base64CharIndex c0, base64CharIndex c1, base64CharIndex c2 with
        | some n0, some n1, some n2 =>
          some [n0 * 4 + n1 / 16, n1 % 16 * 16 + n2 / 4]
        | _, _, _ => none
    else
      match base64CharIndex c0, base64CharIndex c1, base64CharIndex c2,
          base64CharIndex c3, base64DecodeChars rest with
      | some n0, some n1, some n2, some n3, some tail =>
        some ((n0 * 4 + n1 / 16) :: (n1 % 16 * 16 + n2 / 4) ::
          (n2 % 4 * 64 + n3) :: tail)
      | _, _, _, _, _ => none
  | _ => none

/-- Base64 decoding of a string to a byte list. -/
def base64Decode (s : String) : Option (List Nat) :=
  base64DecodeChars s.toList

/-! ## UTF-8 (the byte view `Buffer.from(text, 'utf-8')` takes) -/

/-- UTF-8 encoding of a single unicode scalar value. -/
def utf8EncodeChar (c : Char) : List Nat :=
  let n := c.toNat
  if n < 128 then [n]
  else if n < 2048 then [192 + n / 64, 128 + n % 64]
  else if n < 65536 then [224 + n / 4096, 128 + n / 64 % 64, 128 + n % 64]
  else [240 + n / 262144, 128 + n / 4096 % 64, 128 + n / 64 % 64, 128 + n % 64]

/-- UTF-8 encoding of a string as a byte list. -/
def utf8Encode (s : String) : List Nat :=
  (s.toList.map utf8EncodeChar).flatten

/-! ## JSON serialisation of the Sass source map
(the `JSON.stringify(sourceMap)` call in `sourceMapToUrlComment`) -/

/-- Hexadecimal digit characters. -/
def hexDigitChar (n : Nat) : Char := "0123456789abcdef".toList.getD n '0'

/-- JSON escaping of one character, as `JSON.stringify` performs it on
string values: quote, backslash and control characters escaped, all other
characters passed through. -/
def jsonEscapeChar (c : Char) : List Char :=
  if c = '"' then ['\\', '"']
  else if c = '\\' then ['\\', '\\']
  else if c = '\n' then ['\\', 'n']
  else if c = '\r' then ['\\', 'r']
  else if c = '\t' then ['\\', 't']
  else if c.toNat < 32 then
    ['\\', 'u', '0', '0', hexDigitChar (c.toNat / 16), hexDigitChar (c.toNat % 16)]
  else [c]

/-- A JSON string literal for a string value. -/
def jsonStringLit (s : String) : String :=
  "\"" ++ String.mk (s.toList.map jsonEscapeChar).flatten ++ "\""

/-- A JSON array of string literals. -/
def jsonStringArray (xs : List String) : String :=
  "[" ++ joinWith "," (xs.map jsonStringLit) ++ "]"

/-- The source map object the Sass compiler returns (a raw V3 source map),
restricted to the fields that exist on every Sass source map; `sources` is
the field `sourceMapToUrlComment` rewrites. -/
structure SourceMapModel where
  version : Nat
  sourceRoot : String
  sources : List String
  names : List String
  mappings : String
  deriving Repr, DecidableEq

/-- Model of `JSON.stringify` on a `SourceMapModel`, fields in declaration
order. -/
def jsonStringifySourceMap (sm : SourceMapModel) : String :=
  "\x7b\"version\":" ++ toString sm.version ++
    ",\"sourceRoot\":" ++ jsonStringLit sm.sourceRoot ++
    ",\"sources\":" ++ jsonStringArray sm.sources ++
    ",\"names\":" ++ jsonStringArray sm.names ++
    ",\"mappings\":" ++ jsonStringLit sm.mappings ++ "\x7d"

/-! ## Sass compilation (`sass-language.ts` lines 64-198) -/

/-- The source-rewriting step of `sourceMapToUrlComment` (line 193):
every source entry loses its `file://` scheme and becomes relative to the
given root. -/
def rewriteSourceMapSources (sourceMap : SourceMapModel) (root : String) :
    SourceMapModel :=
  { sourceMap with
    sources := sourceMap.sources.map
      (fun source => relativePath root (fileURLToPath source)) }

/-- Embedding of `sourceMapToUrlComment` (lines 187-198): rewrite the
sources, `JSON.stringify` the map, base64 the UTF-8 bytes and wrap the
payload in the `sourceMappingURL` comment. -/
def sourceMapToUrlComment (sourceMap : SourceMapModel) (root : String) :
    String :=
  let rewritten := rewriteSourceMapSources sourceMap root
  let urlSourceMap := base64Encode (utf8Encode (jsonStringifySourceMap rewritten))
  "/*# sourceMappingURL=data:application/json;charset=utf-8;base64," ++
    urlSourceMap ++ " */"

/-- A Sass source span as the logger and exception handlers read it:
an optional URL, the context line, and 0-based start line and column. -/
structure SassSpan where
  url : Option String
  context : String
  startLine : Nat
  startColumn : Nat
  deriving Repr, DecidableEq

/-- One message reported through the compilation's `logger.warn` callback:
the text, whether it is a deprecation, and the optional source span. -/
structure SassLogMessage where
  text : String
  deprecation : Bool
  span : Option SassSpan
  deriving Repr, DecidableEq

/-- An esbuild `PartialMessage` location as `logger.warn` fills it. -/
structure MessageLocation where
  file : Option String
  lineText : String
  line : Nat
  column : Nat
  deriving Repr, DecidableEq

/-- A note attached to an esbuild `PartialMessage`. -/
structure MessageNote where
  text : String
  deriving Repr, DecidableEq

/-- An esbuild `PartialMessage` as `compileString` produces them. -/
structure SassPartialMessage where
  text : String
  location : Option MessageLocation
  notes : Option (List MessageNote)
  deriving Repr, DecidableEq

/-- Embedding of the `logger.warn` callback body (lines 145-157): a
deprecation becomes the literal text `Deprecation` with the original text
as a note; a span becomes a location whose line is the Sass 0-based line
plus one. -/
def sassWarnHandler (m : SassLogMessage) : SassPartialMessage :=
  { text := if m.deprecation then "Deprecation" else m.text
    location := m.span.map (fun span =>
      { file := span.url.map fileURLToPath
        lineText := span.context
        line := span.startLine + 1
        column := span.startColumn })
    notes := if m.deprecation then some [{ text := m.text }] else none }

/-- A successful `compileStringAsync` value: the compiled CSS, the
optional source map, and the loaded file URLs. -/
structure SassCompileValue where
  css : String
  sourceMap : Option SourceMapModel
  loadedUrls : List String
  deriving Repr, DecidableEq

/-- The outcome of awaiting `compileStringAsync`: a value, a thrown Sass
`Exception` (the shape `isSassException` recognises: an object with a
`sassMessage` property, carrying `message` and `span`), or any other
thrown value (kept opaque). -/
inductive SassCompileOutcome where
  | success (value : SassCompileValue)
  | sassFailure (message : String) (spanUrl : Option String)
  | otherFailure (error : String)
  deriving Repr, DecidableEq

/-- The `OnLoadResult` object literals `compileString` returns
(lines 161-166 and 171-180); absent optional fields are `none`. -/
structure SassOnLoadResult where
  loader : String
  contents : Option String
  watchFiles : Option (List String)
  warnings : List SassPartialMessage
  errors : Option (List SassPartialMessage)
  deriving Repr, DecidableEq

/-- Embedding of `compileString` (lines 64-185) after the worker-pool
dispatch: the compiler's outcome and the messages it reported through the
logger before completing determine the result.  A success embeds the
source map as a trailing comment when present and lists the loaded files
as watch files; a thrown Sass exception is converted to a single error
diagnostic keeping the collected warnings (the span's file, when the span
has a URL whose path is non-empty, becomes the watch file); any other
exception is rethrown (`Except.error`). -/
def compileString (filePath : String) (logged : List SassLogMessage)
    (outcome : SassCompileOutcome) : Except String SassOnLoadResult :=
  let warnings := logged.map sassWarnHandler
  match outcome with
  | .success value =>
    .ok { loader := "css"
          contents := some (match value.sourceMap with
            | some sourceMap =>
              value.css ++ "\n" ++
                sourceMapToUrlComment sourceMap (dirname filePath)
            | none => value.css)
          watchFiles := some (value.loadedUrls.map fileURLToPath)
          warnings := warnings
          errors := none }
  | .sassFailure message spanUrl =>
    let file := spanUrl.map fileURLToPath
    .ok { loader := "css"
          contents := none
          errors := some [{ text := message, location := none, notes := none }]
          warnings := warnings
          watchFiles := match file with
            | some f => if f ≠ "" then some [f] else none
            | none => none }
  | .otherFailure error => .error error

/-! ## SHA-256 (node `createHash('sha256')`, FIPS 180-4) -/

/-- Truncation to a 32-bit word. -/
def w32 (x : Nat) : Nat := x % 4294967296

/-- Right rotation of a 32-bit word by `n` bits. -/
def rotr32 (n x : Nat) : Nat := w32 (x / 2 ^ n + x % 2 ^ n * 2 ^ (32 - n))

/-- Logical right shift by `n` bits. -/
def shr32 (n x : Nat) : Nat := x / 2 ^ n

/-- Bitwise complement of a 32-bit word. -/
def not32 (x : Nat) : Nat := x ^^^ 4294967295

/-- The SHA-256 `Ch` function. -/
def sha256Ch (x y z : Nat) : Nat := (x &&& y) ^^^ (not32 x &&& z)

/-- The SHA-256 `Maj` function. -/
def sha256Maj (x y z : Nat) : Nat := (x &&& y) ^^^ (x &&& z) ^^^ (y &&& z)

/-- The SHA-256 big Sigma-0 function. -/
def sha256S0 (x : Nat) : Nat := rotr32 2 x ^^^ rotr32 13 x ^^^ rotr32 22 x

/-- The SHA-256 big Sigma-1 function. -/
def sha256S1 (x : Nat) : Nat := rotr32 6 x ^^^ rotr32 11 x ^^^ rotr32 25 x

/-- The SHA-256 small sigma-0 function. -/
def sha256s0 (x : Nat) : Nat := rotr32 7 x ^^^ rotr32 18 x ^^^ shr32 3 x

/-- The SHA-256 small sigma-1 function. -/
def sha256s1 (x : Nat) : Nat := rotr32 17 x ^^^ rotr32 19 x ^^^ shr32 10 x

/-- The 64 SHA-256 round constants. -/
def sha256K : List Nat :=
  [1116352408, 1899447441, 3049323471, 3921009573, 961987163,
   1508970993, 2453635748, 2870763221, 3624381080, 310598401,
   607225278, 1426881987, 1925078388, 2162078206, 2614888103,
   3248222580, 3835390401, 4022224774, 264347078, 604807628,
   770255983, 1249150122, 1555081692, 1996064986, 2554220882,
   2821834349, 2952996808, 3210313671, 3336571891, 3584528711,
   113926993, 338241895, 666307205, 773529912, 1294757372,
   1396182291, 1695183700, 1986661051, 2177026350, 2456956037,
   2730485921, 2820302411, 3259730800, 3345764771, 3516065817,
   3600352804, 4094571909, 275423344, 430227734, 506948616,
   659060556, 883997877, 958139571, 1322822218, 1537002063,
   1747873779, 1955562222, 2024104815, 2227730452, 2361852424,
   2428436474, 2756734187, 3204031479, 3329325298]

/-- The SHA-256 initial hash value. -/
def sha256H0 : List Nat :=
  [1779033703, 3144134277, 1013904242, 2773480762, 1359893119,
   2600822924, 528734635, 1541459225]

/-- Big-endian bytes of a value, `n` bytes wide. -/
def beBytes (n value : Nat) : List Nat :=
  (List.range n).map (fun i => value / 256 ^ (n - 1 - i) % 256)

/-- SHA-256 message padding: a `0x80` byte, zeroes to 56 mod 64, and the
bit length as an 8-byte big-endian integer. -/
def sha256Pad (msg : List Nat) : List Nat :=
  let padZeros := (119 - msg.length % 64) % 64
  msg ++ 128 :: List.replicate padZeros 0 ++ beBytes 8 (msg.length * 8)

/-- Group a byte list into big-endian 32-bit words, four bytes each. -/
def bytesToWords : List Nat → List Nat
  | b0 :: b1 :: b2 :: b3 :: rest =>
    (b0 * 16777216 + b1 * 65536 + b2 * 256 + b3) :: bytesToWords rest
  | _ => []

/-- Group a list into chunks of 64 elements. -/
def chunks64 (l : List Nat) : List (List Nat) :=
  if _h : l.length < 64 then
    if l.isEmpty then [] else [l]
  else
    l.take 64 :: chunks64 (l.drop 64)
termination_by l.length
decreasing_by
  simp only [List.length_drop]
  omega

/-- The SHA-256 message schedule: extend 16 words to 64. -/
def sha256Schedule (ws : List Nat) : List Nat :=
  (List.range 48).foldl
    (fun w _ =>
      let i := w.length
      w ++ [w32 (sha256s1 (w.getD (i - 2) 0) + w.getD (i - 7) 0 +
        sha256s0 (w.getD (i - 15) 0) + w.getD (i - 16) 0)])
    ws

/-- One SHA-256 round on the working variables `[a,b,c,d,e,f,g,h]` with a
round constant and a schedule word. -/
def sha256Round (state : List Nat) (kw : Nat × Nat) : List Nat :=
  match state with
  | [a, b, c, d, e, f, g, h] =>
    let t1 := w32 (h + sha256S1 e + sha256Ch e f g + kw.1 + kw.2)
    let t2 := w32 (sha256S0 a + sha256Maj a b c)
    [w32 (t1 + t2), a, b, c, w32 (d + t1), e, f, g]
  | s => s

/-- SHA-256 compression of one 64-byte block into the hash state. -/
def sha256Compress (h : List Nat) (block : List Nat) : List Nat :=
  let w := sha256Schedule (bytesToWords block)
  let final := (sha256K.zip w).foldl sha256Round h
  (h.zip final).map (fun p => w32 (p.1 + p.2))

/-- SHA-256 digest of a byte list, as bytes. -/
def sha256Bytes (msg : List Nat) : List Nat :=
  let blocks := chunks64 (sha256Pad msg)
  let h := blocks.foldl sha256Compress sha256H0
  (h.map (beBytes 4)).flatten

/-- Lowercase hexadecimal rendering of a byte list. -/
def bytesToHex (bytes : List Nat) : String :=
  String.mk ((bytes.map (fun b =>
    [hexDigitChar (b / 16 % 16), hexDigitChar (b % 16)])).flatten)

/-- Model of `createHash('sha256').update(data).digest('hex')`: the hex
digest of the UTF-8 bytes of the string. -/
def sha256Hex (data : String) : String :=
  bytesToHex (sha256Bytes (utf8Encode data))

/-! ## Component stylesheet identifiers (`bundle-options.ts` lines 20-23
and 99-115)

The module-level `componentStyleCounter` becomes explicitly threaded
state; `bundleComponentStylesheet`'s identifier computation is the
TypeScript union `string | number`. -/

/-- The identifier `bundleComponentStylesheet` computes on line 111: a hex
digest string for inline stylesheets, the counter number for files. -/
inductive ComponentStyleId where
  | digest (hex : String)
  | counter (value : Nat)
  deriving Repr, DecidableEq

/-- Rendering of the identifier as the template string `entry` uses. -/
def ComponentStyleId.render : ComponentStyleId → String
  | .digest hex => hex
  | .counter value => toString value

/-- Embedding of line 111 of `bundleComponentStylesheet`:
`inline ? createHash('sha256').update(data).digest('hex')
: componentStyleCounter++` with the module counter threaded through. -/
def componentStyleId (inline : Bool) (data : String) (counter : Nat) :
    ComponentStyleId × Nat :=
  if inline then (.digest (sha256Hex data), counter)
  else (.counter counter, counter + 1)

/-- One call of `bundleComponentStylesheet`, restricted to the arguments
the identifier computation reads. -/
structure StyleCall where
  language : String
  data : String
  filename : String
  inline : Bool

/-- The `entry` string of line 112: `[language, id, filename].join(';')`. -/
def styleEntry (call : StyleCall) (id : ComponentStyleId) : String :=
  joinWith ";" [call.language, id.render, call.filename]

/-- A session of `bundleComponentStylesheet` calls threading the module's
`componentStyleCounter`: the identifier each call computes, in order. -/
def runStyleSession (counter : Nat) : List StyleCall → List ComponentStyleId
  | [] => []
  | call :: rest =>
    let (id, counterAfter) :=
      componentStyleId call.inline call.data counter
    id :: runStyleSession counterAfter rest

/-! ## Theorems for the claims -/

/-- C6: for every two calls of `bundleComponentStylesheet` with
`inline = true` and identical stylesheet content, the computed content
identifier is identical — the SHA-256 hex digest of the content — whatever
the session counter state is when each call occurs, and the counter (the
only session state the computation touches) is left unchanged, so the
identifier is a deterministic function of the content alone. -/
theorem componentStyleId_inline_digest (data : String) (c1 c2 : Nat) :
    (componentStyleId true data c1).1 = (componentStyleId true data c2).1
    ∧ (componentStyleId true data c1).1 = .digest (sha256Hex data)
    ∧ (componentStyleId true data c1).2 = c1 :=
  ⟨rfl, rfl, rfl⟩

/-- C8: `shutdownSassWorkerPool` is idempotent: it always clears the pool
reference, running it twice equals running it once (the second run
performs no close), and running it on a state where the pool was never
created changes nothing — in particular it performs no close call and,
being a total function, never throws. -/
theorem shutdownSassWorkerPool_idempotent (s : SassModuleState) (k : Nat) :
    (shutdownSassWorkerPool s).sassWorkerPool = none
    ∧ shutdownSassWorkerPool (shutdownSassWorkerPool s) = shutdownSassWorkerPool s
    ∧ shutdownSassWorkerPool { sassWorkerPool := none, closeCalls := k } =
        { sassWorkerPool := none, closeCalls := k } := by
  refine ⟨rfl, ?_, ?_⟩ <;> simp [shutdownSassWorkerPool]

/-- C9: when a component's metadata has a `templateUrl` but no inline
`template` property and the referenced file cannot be read,
`getComponentTemplate` returns the empty string (the read failure is
swallowed); when the inline `template` property is present its full text
is returned and no file read is attempted. -/
theorem getComponentTemplate_soft_skip (host : SchematicsTree)
    (compPath templateUrl fullText : String) (info : TemplateInfo) :
    (info.templateProp = none → info.templateUrlProp = some templateUrl →
      host (joinPath [dirname compPath, templateUrl]) = none →
      getComponentTemplate host compPath info =
        ("", [joinPath [dirname compPath, templateUrl]]))
    ∧ (info.templateProp = some fullText →
      getComponentTemplate host compPath info = (fullText, [])) := by
  constructor
  · intro h1 h2 h3
    simp [getComponentTemplate, h1, h2, h3]
  · intro h1
    simp [getComponentTemplate, h1]

/-- Witness for C9 at a concrete tree whose every read fails. -/
theorem getComponentTemplate_soft_skip_witness :
    getComponentTemplate (fun _ => none) "/src/app/app.component.ts"
        { templateProp := none, templateUrlProp := some "app.component.html" } =
      ("", [joinPath [dirname "/src/app/app.component.ts", "app.component.html"]]) :=
  (getComponentTemplate_soft_skip (fun _ => none) "/src/app/app.component.ts"
    "app.component.html" ""
    { templateProp := none, templateUrlProp := some "app.component.html" }).1
    rfl rfl rfl

/-- C10: when the bundling pass result carries errors,
`bundleComponentStylesheet` returns empty contents, no map, no path, no
metafile, an empty resource file list, and propagates exactly the errors
and warnings of the pass: the output partitioning and the metafile
entry-point stripping are skipped entirely. -/
theorem extractBundleResult_on_errors (errs warns : List BundleMessage)
    (files : List BundleOutputFile)
    (meta : Option (List (String × MetafileOutput))) :
    extractBundleResult
        { errors := some errs, warnings := warns,
          outputFiles := files, metafile := meta } =
      { errors := some errs, warnings := warns, contents := "", map := none,
        path := none, resourceFiles := [], metafile := none } := by
  simp [extractBundleResult]

/-- C4: every message the Sass logger reports lands in the result's
warnings list (never in the errors list, which a successful compilation
leaves absent), and the translation records a one-based line (the Sass
0-based line plus one); a deprecation message becomes the text
`Deprecation` with the original text attached as a note, a plain message
keeps its text and gets no note. -/
theorem compileString_logger_warnings (filePath : String)
    (logged : List SassLogMessage) (value : SassCompileValue)
    (t : String) (span : SassSpan) :
    (compileString filePath logged (.success value)).toOption.map
        SassOnLoadResult.warnings = some (logged.map sassWarnHandler)
    ∧ (compileString filePath logged (.success value)).toOption.map
        SassOnLoadResult.errors = some none
    ∧ sassWarnHandler { text := t, deprecation := false, span := some span } =
        { text := t
          location := some
            { file := span.url.map fileURLToPath, lineText := span.context,
              line := span.startLine + 1, column := span.startColumn }
          notes := none }
    ∧ sassWarnHandler { text := t, deprecation := true, span := some span } =
        { text := "Deprecation"
          location := some
            { file := span.url.map fileURLToPath, lineText := span.context,
              line := span.startLine + 1, column := span.startColumn }
          notes := some [{ text := t }] } :=
  ⟨rfl, rfl, rfl, rfl⟩

/-- C3: a thrown exception of the recognizable Sass stylesheet-error
shape is never rethrown: `compileString` returns a result carrying
exactly one error diagnostic with the exception's message and the
warnings collected before the failure, and when the error span has a URL
(with a non-empty path) the offending file is the watch-file entry; every
other exception propagates unchanged. -/
theorem compileString_exception_handling (filePath : String)
    (logged : List SassLogMessage) (message u error : String)
    (spanUrl : Option String) :
    (compileString filePath logged (.sassFailure message spanUrl)).isOk = true
    ∧ (compileString filePath logged (.sassFailure message spanUrl)).toOption.map
        SassOnLoadResult.errors =
        some (some [{ text := message, location := none, notes := none }])
    ∧ (compileString filePath logged (.sassFailure message spanUrl)).toOption.map
        SassOnLoadResult.warnings = some (logged.map sassWarnHandler)
    ∧ (spanUrl = some u → fileURLToPath u ≠ "" →
        (compileString filePath logged (.sassFailure message spanUrl)).toOption.map
          SassOnLoadResult.watchFiles = some (some [fileURLToPath u]))
    ∧ compileString filePath logged (.otherFailure error) = .error error := by
  refine ⟨rfl, rfl, rfl, ?_, rfl⟩
  intro h1 h2
  subst h1
  simp only [compileString, Option.map_some, Except.toOption, Option.map]
  simp [h2]

/-- Witness for C3 at a concrete failed compilation with a span URL. -/
theorem compileString_exception_handling_witness :
    (compileString "/ws/src/a.scss" []
        (.sassFailure "Undefined variable." (some "file:///ws/src/b.scss"))).toOption.map
      SassOnLoadResult.watchFiles = some (some ["/ws/src/b.scss"]) :=
  (compileString_exception_handling "/ws/src/a.scss" [] "Undefined variable."
    "file:///ws/src/b.scss" "boom" (some "file:///ws/src/b.scss")).2.2.2.1
    rfl (by decide)

/-- C1 counterexample: the claim orders the previously-successful-directory
retry before any package deep-import attempt, but `findFileUrl` tries the
package deep-import against the primary directory first; a resolver where
the specifier resolves only through a previous directory while the
package's `package.json` resolves in the primary directory separates the
two orders. -/
theorem findFileUrl_claim_order_counterexample :
    findFileUrl cexResolver "/root" "pkg/style" ["/prev"] =
        some "file:///root/node_modules/pkg/style"
    ∧ findFileUrlClaimOrder cexResolver "/root" "pkg/style" ["/prev"] =
        some "file:///prev/node_modules/pkg/style.scss"
    ∧ findFileUrl cexResolver "/root" "pkg/style" ["/prev"] ≠
        findFileUrlClaimOrder cexResolver "/root" "pkg/style" ["/prev"] := by
  refine ⟨by decide, by decide, by decide⟩

/-- Auxiliary fact: the splitter always produces at least one field. -/
theorem splitCharsAux_ne_nil (sep : Char) (cs acc : List Char) :
    splitCharsAux sep cs acc ≠ [] := by
  induction cs generalizing acc with
  | nil => simp [splitCharsAux]
  | cons c cs ih =>
    by_cases h : c = sep <;> simp [splitCharsAux, h, ih]

/-- Splitting a string always produces at least one field (JS `split`). -/
theorem splitOnChar_ne_nil (sep : Char) (s : String) : splitOnChar sep s ≠ [] := by
  unfold splitOnChar
  simp [splitCharsAux_ne_nil]

/-- An empty segment in second position is dropped by the non-emptiness
filter of `joinPath`. -/
theorem filter_drop_empty (a : String) (l : List String) :
    List.filter (fun s => !decide (s = "")) (a :: "" :: l) =
      List.filter (fun s => !decide (s = "")) (a :: l) := by
  by_cases h : a = "" <;> simp [h]

/-- The deep-import target the source builds (with its conditional middle
segment and node `join` dropping empty parts) equals the claim's
description: the package.json directory joined with the specifier's
non-package path segments. -/
theorem deepImportPath_eq (url pp : String) :
    sassDeepImportPath url pp = claimDeepImportPath url pp := by
  cases hp : splitOnChar '/' url with
  | nil => exact absurd hp (splitOnChar_ne_nil '/' url)
  | cons x rest =>
    cases rest with
    | nil =>
      simp only [sassDeepImportPath, claimDeepImportPath, sassSpecifierHasScope, hp]
      simp [joinPath, filter_drop_empty]
    | cons y rest2 =>
      simp only [sassDeepImportPath, claimDeepImportPath, sassSpecifierHasScope, hp]
      by_cases hs : strStartsWith x "@"
      · simp [hs, joinPath, filter_drop_empty]
      · by_cases hy : y = ""
        · subst hy; simp [hs, joinPath, filter_drop_empty]
        · simp [hs, hy, joinPath]

/-- C1 as amended: the import resolver's actual order is (1) the
specifier as-is against the primary resolution directory; (2) the package
deep-import fallback via `<package-name>/package.json` against the
primary directory; (3) the specifier against the previously-successful
resolution directories; (4) the deep-import fallback against those
directories; and when every step fails, resolution yields the not-found
sentinel `none` — `findFileUrl` is a total function, so no exception is
thrown for an unresolved import. -/
theorem findFileUrl_resolution_order (resolve : Resolver)
    (primaryDir url : String) (prev : List String) :
    (∀ p, resolveUrl resolve primaryDir url [] = some p →
      findFileUrl resolve primaryDir url prev = some (pathToFileURL p))
    ∧ (∀ pp, resolveUrl resolve primaryDir url [] = none →
      resolveUrl resolve primaryDir (sassPackageName url ++ "/package.json") [] = some pp →
      findFileUrl resolve primaryDir url prev =
        some (pathToFileURL (sassDeepImportPath url pp)))
    ∧ (∀ p, resolveUrl resolve primaryDir url [] = none →
      resolveUrl resolve primaryDir (sassPackageName url ++ "/package.json") [] = none →
      resolveUrl resolve primaryDir url prev = some p →
      findFileUrl resolve primaryDir url prev = some (pathToFileURL p))
    ∧ (∀ pp, resolveUrl resolve primaryDir url [] = none →
      resolveUrl resolve primaryDir (sassPackageName url ++ "/package.json") [] = none →
      resolveUrl resolve primaryDir url prev = none →
      resolveUrl resolve primaryDir (sassPackageName url ++ "/package.json") prev = some pp →
      findFileUrl resolve primaryDir url prev =
        some (pathToFileURL (sassDeepImportPath url pp)))
    ∧ (resolveUrl resolve primaryDir url [] = none →
      resolveUrl resolve primaryDir (sassPackageName url ++ "/package.json") [] = none →
      resolveUrl resolve primaryDir url prev = none →
      resolveUrl resolve primaryDir (sassPackageName url ++ "/package.json") prev = none →
      findFileUrl resolve primaryDir url prev = none) := by
  refine ⟨?_, ?_, ?_, ?_, ?_⟩ <;> intros <;> simp_all [findFileUrl]

/-- Witness for the amended C1 at a resolver that resolves nothing: all
steps fail and the not-found sentinel comes back. -/
theorem findFileUrl_resolution_order_witness :
    findFileUrl (fun _ _ => none) "/root" "pkg/style" ["/prev"] = none :=
  (findFileUrl_resolution_order (fun _ _ => none) "/root" "pkg/style"
    ["/prev"]).2.2.2.2 rfl rfl rfl rfl

/-- C2: a specifier reaching the package deep-import fallback is split on
slashes with the first two segments forming the package name exactly when
the first starts with an at-sign; when `<package-name>/package.json`
resolves, the result is the file URL of the package.json directory joined
with the specifier's non-package path segments — at both fallback sites
(primary directory, and previously-resolved directories). -/
theorem findFileUrl_package_deep_import (resolve : Resolver)
    (primaryDir url pp : String) (prev : List String) :
    (strStartsWith ((splitOnChar '/' url).headD "") "@" = true →
      (splitOnChar '/' url).length ≥ 2 →
      sassPackageName url =
        ((splitOnChar '/' url).headD "") ++ "/" ++ ((splitOnChar '/' url)[1]?).getD "")
    ∧ (strStartsWith ((splitOnChar '/' url).headD "") "@" = false →
      sassPackageName url = (splitOnChar '/' url).headD "")
    ∧ (resolveUrl resolve primaryDir url [] = none →
      resolveUrl resolve primaryDir (sassPackageName url ++ "/package.json") [] = some pp →
      findFileUrl resolve primaryDir url prev =
        some (pathToFileURL (claimDeepImportPath url pp)))
    ∧ (resolveUrl resolve primaryDir url [] = none →
      resolveUrl resolve primaryDir (sassPackageName url ++ "/package.json") [] = none →
      resolveUrl resolve primaryDir url prev = none →
      resolveUrl resolve primaryDir (sassPackageName url ++ "/package.json") prev = some pp →
      findFileUrl resolve primaryDir url prev =
        some (pathToFileURL (claimDeepImportPath url pp))) := by
  refine ⟨?_, ?_, ?_, ?_⟩
  · intro h1 h2
    simp [sassPackageName, sassSpecifierHasScope, h1, h2]
    intro h
    simp_all
  · intro h1
    simp [sassPackageName, sassSpecifierHasScope, h1]
    intro _ h3
    simp_all
  · intro h1 h2
    simp [findFileUrl, h1, h2, deepImportPath_eq]
  · intro h1 h2 h3 h4
    simp [findFileUrl, h1, h2, h3, h4, deepImportPath_eq]

/-- A resolver knowing only one scoped package's `package.json`, for the
C2 witness. -/
def deepImportResolver : Resolver := fun u d =>
  if u = "@angular/material/package.json" && d = "/ws" then
    some "/ws/node_modules/@angular/material/package.json"
  else none

/-- Witness for C2 at a concrete scoped deep import. -/
theorem findFileUrl_package_deep_import_witness :
    findFileUrl deepImportResolver "/ws"
        "@angular/material/prebuilt-themes/indigo-pink.css" [] =
      some (pathToFileURL (claimDeepImportPath
        "@angular/material/prebuilt-themes/indigo-pink.css"
        "/ws/node_modules/@angular/material/package.json")) :=
  (findFileUrl_package_deep_import deepImportResolver "/ws"
    "@angular/material/prebuilt-themes/indigo-pink.css"
    "/ws/node_modules/@angular/material/package.json" []).2.2.1 rfl rfl

/-- Auxiliary fact for C7: a non-inline call anywhere in a session gets a
counter identifier at least the session's starting counter. -/
theorem runStyleSession_file_id_ge (calls : List StyleCall) :
    ∀ (c k : Nat) (call : StyleCall), calls[k]? = some call →
      call.inline = false →
      ∃ m, (runStyleSession c calls)[k]? = some (.counter m) ∧ c ≤ m := by
  induction calls with
  | nil => intro c k call h; simp at h
  | cons head tail ih =>
    intro c k call h hin
    cases k with
    | zero =>
      simp at h
      subst h
      refine ⟨c, ?_, le_refl c⟩
      simp [runStyleSession, componentStyleId, hin]
    | succ k' =>
      simp at h
      by_cases hh : head.inline
      · obtain ⟨m, hm, hcm⟩ := ih c k' call h hin
        exact ⟨m, by simp [runStyleSession, componentStyleId, hh, hm], hcm⟩
      · obtain ⟨m, hm, hcm⟩ := ih (c + 1) k' call h hin
        refine ⟨m, ?_, by omega⟩
        simp only [Bool.not_eq_true] at hh
        simp [runStyleSession, componentStyleId, hh, hm]

/-- C7: two distinct `bundleComponentStylesheet` calls with
`inline = false` within one session get distinct identifiers: each gets
the session counter's value at its turn, the counter only grows, so the
later call's counter identifier is strictly larger and the two are never
equal. -/
theorem runStyleSession_file_ids_unique (calls : List StyleCall)
    (c0 i j : Nat) (ci cj : StyleCall) (hij : i < j)
    (hi : calls[i]? = some ci) (hj : calls[j]? = some cj)
    (hci : ci.inline = false) (hcj : cj.inline = false) :
    ∃ a b, (runStyleSession c0 calls)[i]? = some (.counter a)
      ∧ (runStyleSession c0 calls)[j]? = some (.counter b)
      ∧ a < b
      ∧ (runStyleSession c0 calls)[i]? ≠ (runStyleSession c0 calls)[j]? := by
  induction calls generalizing c0 i j with
  | nil => simp at hi
  | cons head tail ih =>
    cases i with
    | zero =>
      simp at hi
      subst hi
      cases j with
      | zero => omega
      | succ j' =>
        simp at hj
        obtain ⟨m, hm, hcm⟩ :=
          runStyleSession_file_id_ge tail (c0 + 1) j' cj hj hcj
        refine ⟨c0, m, ?_, ?_, by omega, ?_⟩
        · simp [runStyleSession, componentStyleId, hci]
        · simp [runStyleSession, componentStyleId, hci, hm]
        · simp only [runStyleSession, componentStyleId, hci]
          simp [hm]
          omega
    | succ i' =>
      cases j with
      | zero => omega
      | succ j' =>
        simp at hi hj
        have hij' : i' < j' := by omega
        obtain ⟨a, b, ha, hb, hab, hne⟩ :=
          ih (componentStyleId head.inline head.data c0).2 i' j' hij' hi hj
        refine ⟨a, b, ?_, ?_, hab, ?_⟩
        · simp [runStyleSession, ha]
        · simp [runStyleSession, hb]
        · simp only [runStyleSession]
          simpa using hne

/-- Witness for C7 at a concrete two-call session of file stylesheets. -/
theorem runStyleSession_file_ids_unique_witness :
    ∃ a b,
      (runStyleSession 0
          [{ language := "css", data := "x", filename := "/ws/a.css", inline := false },
           { language := "scss", data := "y", filename := "/ws/b.scss", inline := false }])[0]? =
        some (.counter a)
      ∧ (runStyleSession 0
          [{ language := "css", data := "x", filename := "/ws/a.css", inline := false },
           { language := "scss", data := "y", filename := "/ws/b.scss", inline := false }])[1]? =
        some (.counter b)
      ∧ a < b
      ∧ (runStyleSession 0
          [{ language := "css", data := "x", filename := "/ws/a.css", inline := false },
           { language := "scss", data := "y", filename := "/ws/b.scss", inline := false }])[0]? ≠
        (runStyleSession 0
          [{ language := "css", data := "x", filename := "/ws/a.css", inline := false },
           { language := "scss", data := "y", filename := "/ws/b.scss", inline := false }])[1]? :=
  runStyleSession_file_ids_unique
    [{ language := "css", data := "x", filename := "/ws/a.css", inline := false },
     { language := "scss", data := "y", filename := "/ws/b.scss", inline := false }]
    0 0 1
    { language := "css", data := "x", filename := "/ws/a.css", inline := false }
    { language := "scss", data := "y", filename := "/ws/b.scss", inline := false }
    (by omega) rfl rfl rfl rfl

/-- Decoding table applied to the encoding table is the identity on
sextet values. -/
theorem base64CharIndex_base64Char :
    ∀ n < 64, base64CharIndex (base64Char n) = some n := by decide

/-- Encoded sextets are never the padding character. -/
theorem base64Char_ne_pad : ∀ n < 64, base64Char n ≠ '=' := by decide

/-- Base64 decoding is a left inverse of base64 encoding on byte lists. -/
theorem base64_roundtrip (bs : List Nat) (h : ∀ b ∈ bs, b < 256) :
    base64DecodeChars (base64EncodeChars bs) = some bs := by
  match bs with
  | [] => rfl
  | [b0] =>
    have hb0 : b0 < 256 := h b0 (by simp)
    have h1 : base64CharIndex (base64Char (b0 / 4)) = some (b0 / 4) :=
      base64CharIndex_base64Char _ (by omega)
    have h2 : base64CharIndex (base64Char (b0 % 4 * 16)) = some (b0 % 4 * 16) :=
      base64CharIndex_base64Char _ (by omega)
    simp [base64EncodeChars, base64DecodeChars, h1, h2]
    omega
  | [b0, b1] =>
    have hb0 : b0 < 256 := h b0 (by simp)
    have hb1 : b1 < 256 := h b1 (by simp)
    have h1 : base64CharIndex (base64Char (b0 / 4)) = some (b0 / 4) :=
      base64CharIndex_base64Char _ (by omega)
    have h2 : base64CharIndex (base64Char (b0 % 4 * 16 + b1 / 16)) =
        some (b0 % 4 * 16 + b1 / 16) :=
      base64CharIndex_base64Char _ (by omega)
    have h3 : base64CharIndex (base64Char (b1 % 16 * 4)) = some (b1 % 16 * 4) :=
      base64CharIndex_base64Char _ (by omega)
    have hne : base64Char (b1 % 16 * 4) ≠ '=' := base64Char_ne_pad _ (by omega)
    simp [base64EncodeChars, base64DecodeChars, h1, h2, h3, hne]
    omega
  | b0 :: b1 :: b2 :: rest =>
    have hb0 : b0 < 256 := h b0 (by simp)
    have hb1 : b1 < 256 := h b1 (by simp)
    have hb2 : b2 < 256 := h b2 (by simp)
    have ih := base64_roundtrip rest (fun b hb =>
      h b (List.mem_cons_of_mem _ (List.mem_cons_of_mem _ (List.mem_cons_of_mem _ hb))))
    have h1 : base64CharIndex (base64Char (b0 / 4)) = some (b0 / 4) :=
      base64CharIndex_base64Char _ (by omega)
    have h2 : base64CharIndex (base64Char (b0 % 4 * 16 + b1 / 16)) =
        some (b0 % 4 * 16 + b1 / 16) :=
      base64CharIndex_base64Char _ (by omega)
    have h3 : base64CharIndex (base64Char (b1 % 16 * 4 + b2 / 64)) =
        some (b1 % 16 * 4 + b2 / 64) :=
      base64CharIndex_base64Char _ (by omega)
    have h4 : base64CharIndex (base64Char (b2 % 64)) = some (b2 % 64) :=
      base64CharIndex_base64Char _ (by omega)
    have hne : base64Char (b2 % 64) ≠ '=' := base64Char_ne_pad _ (by omega)
    simp [base64EncodeChars, base64DecodeChars, h1, h2, h3, h4, hne, ih]
    omega

/-- Every unicode scalar value stays below the code point bound. -/
theorem char_toNat_lt (c : Char) : c.toNat < 1114112 := by
  have h := c.valid
  simp only [UInt32.isValidChar, Nat.isValidChar] at h
  rcases h with h | ⟨h1, h2⟩
  · exact Nat.lt_trans h (by norm_num)
  · exact h2

/-- UTF-8 encoding of a character produces genuine bytes. -/
theorem utf8EncodeChar_lt (c : Char) : ∀ b ∈ utf8EncodeChar c, b < 256 := by
  have hc := char_toNat_lt c
  intro b hb
  rw [show utf8EncodeChar c = (if c.toNat < 128 then [c.toNat]
      else if c.toNat < 2048 then [192 + c.toNat / 64, 128 + c.toNat % 64]
      else if c.toNat < 65536 then
        [224 + c.toNat / 4096, 128 + c.toNat / 64 % 64, 128 + c.toNat % 64]
      else [240 + c.toNat / 262144, 128 + c.toNat / 4096 % 64,
        128 + c.toNat / 64 % 64, 128 + c.toNat % 64]) from rfl] at hb
  split_ifs at hb <;> simp_all <;> omega

/-- UTF-8 encoding of a string produces genuine bytes. -/
theorem utf8Encode_lt (s : String) : ∀ b ∈ utf8Encode s, b < 256 := by
  intro b hb
  unfold utf8Encode at hb
  rw [List.mem_flatten] at hb
  obtain ⟨l, hl, hbl⟩ := hb
  rw [List.mem_map] at hl
  obtain ⟨c, _, rfl⟩ := hl
  exact utf8EncodeChar_lt c b hbl

/-- Base64 decoding inverts base64 encoding on byte lists, at the string
level. -/
theorem base64Decode_base64Encode (bs : List Nat) (h : ∀ b ∈ bs, b < 256) :
    base64Decode (base64Encode bs) = some bs := by
  unfold base64Decode base64Encode
  rw [show (String.mk (base64EncodeChars bs)).toList = base64EncodeChars bs from rfl]
  exact base64_roundtrip bs h

/-- C5: a successful compilation with a source map returns the compiled
CSS followed by a newline and the sourceMappingURL trailing comment whose
base64 payload decodes exactly to the JSON of the source map whose every
source entry was stripped of the `file://` scheme and rewritten relative
to the compilation root (the input file's directory); without a source
map the contents are exactly the compiled CSS. -/
theorem compileString_sourcemap_embedding (filePath css : String)
    (sourceMap : SourceMapModel) (loadedUrls : List String)
    (logged : List SassLogMessage) :
    ((compileString filePath logged
        (.success { css := css, sourceMap := some sourceMap,
                    loadedUrls := loadedUrls })).toOption.bind
        SassOnLoadResult.contents
      = some (css ++ "\n" ++ sourceMapToUrlComment sourceMap (dirname filePath)))
    ∧ sourceMapToUrlComment sourceMap (dirname filePath) =
        "/*# sourceMappingURL=data:application/json;charset=utf-8;base64," ++
          base64Encode (utf8Encode (jsonStringifySourceMap
            (rewriteSourceMapSources sourceMap (dirname filePath)))) ++ " */"
    ∧ base64Decode (base64Encode (utf8Encode (jsonStringifySourceMap
        (rewriteSourceMapSources sourceMap (dirname filePath)))))
      = some (utf8Encode (jsonStringifySourceMap
          (rewriteSourceMapSources sourceMap (dirname filePath))))
    ∧ (rewriteSourceMapSources sourceMap (dirname filePath)).sources
      = sourceMap.sources.map (fun source =>
          relativePath (dirname filePath) (fileURLToPath source))
    ∧ ((compileString filePath logged
        (.success { css := css, sourceMap := none,
                    loadedUrls := loadedUrls })).toOption.bind
        SassOnLoadResult.contents = some css) :=
  ⟨rfl, rfl,
   base64Decode_base64Encode _ (utf8Encode_lt _),
   rfl, rfl⟩
